import Mathlib

/-!
# Day-phase classifier of `suncalc`

A shallow embedding of `suncalc.go`: the `DayPhase` constants, the
`SunCalculator` record, its constructor `NewSunCalculator`, the classifier
`GetCurrentPhase` and the twelve binary getters, followed by the properties
established about them.

The clock is made explicit: `GetCurrentPhase` and the getters take the value
that `time.Now()` returned as an argument `now`.
-/

namespace SunCalc

/-! ## Data model -/

/-! An instant of Go `time.Time` is represented by its signed count of nanoseconds
measured from the zero value of `time.Time` (January 1 of year 1, 00:00:00 UTC).
Instants before the zero value are representable in Go, hence `Int`. -/

/-- The zero value `time.Time{}`. -/
def Time.zero : Int := 0

/-- Go `t.Before(u)`: `t` is strictly earlier than `u`. -/
def Time.Before (t u : Int) : Bool := decide (t < u)

/-- Go `t.After(u)`: `t` is strictly later than `u`. -/
def Time.After (t u : Int) : Bool := decide (u < t)

/-- Go `type DayPhase string`. -/
abbrev DayPhase := String

def PhaseNight : DayPhase := "night"
def PhaseAstroDawn : DayPhase := "astroDawn"
def PhaseNauticalDawn : DayPhase := "nauticalDawn"
def PhaseCivilDawn : DayPhase := "civilDawn"
def PhaseSunrise : DayPhase := "sunrise"
def PhaseGoldenMorning : DayPhase := "goldenMorning"
def PhaseDay : DayPhase := "day"
def PhaseGoldenEvening : DayPhase := "goldenEvening"
def PhaseSunset : DayPhase := "sunset"
def PhaseCivilDusk : DayPhase := "civilDusk"
def PhaseNauticalDusk : DayPhase := "nauticalDusk"
def PhaseAstroDusk : DayPhase := "astroDusk"

/-- Modelled from the spec: the declaration of `DayTimeName` is not part of
`suncalc.go`; these are the twelve event names of the solar event table that
the classifier reads, plus the two derivable ones (solar noon and nadir). -/
inductive DayTimeName where
  | NightEnd | NauticalDawn | Dawn | Sunrise | SunriseEnd | GoldenHourEnd
  | GoldenHour | SunsetStart | Sunset | Dusk | NauticalDusk | Night
  | SolarNoon | Nadir
  deriving DecidableEq, Repr

open DayTimeName

/-- Modelled from the spec: the declaration of `DayTime` is not part of
`suncalc.go`; the classifier only reads its field `Value`, an instant. -/
structure DayTime where
  Value : Int
  deriving DecidableEq, Repr

/-- The Go zero value of `DayTime`, which a map lookup yields for an absent key. -/
def DayTime.zeroValue : DayTime := ⟨Time.zero⟩

/-- Go `map[DayTimeName]DayTime`: a key is absent (`none`) or bound to a value. -/
abbrev TimesMap := DayTimeName → Option DayTime

/-- Go map index expression `m[name]`: the bound value, or the zero value of
the element type when the key is absent. -/
def TimesMap.index (m : TimesMap) (name : DayTimeName) : DayTime :=
  (m name).getD DayTime.zeroValue

/-- Go `float64` coordinates in decimal degrees; a finite `float64` is a rational. -/
abbrev Float64 := ℚ

/-- The record `SunCalculator`. -/
structure SunCalculator where
  latitude : Float64
  longitude : Float64
  date : Int
  times : TimesMap

/-- The constructor `NewSunCalculator`. `GetTimes` is declared in another file of
the package and is taken as a parameter. -/
def NewSunCalculator (GetTimes : Int → Float64 → Float64 → TimesMap)
    (latitude longitude : Float64) (date : Int) : SunCalculator :=
  let sc : SunCalculator :=
    { latitude := latitude, longitude := longitude, date := date, times := fun _ => none }
  { sc with times := GetTimes date latitude longitude }

/-! ## The classifier -/

/-- The method `GetCurrentPhase`, with `now` the value read from the clock. -/
def GetCurrentPhase (sc : SunCalculator) (now : Int) : DayPhase :=
  if Time.Before now (sc.times.index NightEnd).Value then PhaseNight
  else if Time.Before now (sc.times.index NauticalDawn).Value then PhaseAstroDawn
  else if Time.Before now (sc.times.index Dawn).Value then PhaseNauticalDawn
  else if Time.Before now (sc.times.index Sunrise).Value then PhaseCivilDawn
  else if Time.Before now (sc.times.index SunriseEnd).Value then PhaseSunrise
  else if Time.Before now (sc.times.index GoldenHourEnd).Value then PhaseGoldenMorning
  else if Time.After now (sc.times.index Night).Value then PhaseNight
  else if Time.After now (sc.times.index NauticalDusk).Value then PhaseAstroDusk
  else if Time.After now (sc.times.index Dusk).Value then PhaseNauticalDusk
  else if Time.After now (sc.times.index Sunset).Value then PhaseCivilDusk
  else if Time.After now (sc.times.index SunsetStart).Value then PhaseSunset
  else if Time.After now (sc.times.index GoldenHour).Value then PhaseGoldenEvening
  else PhaseDay

/-! ## Binary getters -/

def IsNight (sc : SunCalculator) (now : Int) : Bool := GetCurrentPhase sc now == PhaseNight
def IsAstroDawn (sc : SunCalculator) (now : Int) : Bool := GetCurrentPhase sc now == PhaseAstroDawn
def IsNauticalDawn (sc : SunCalculator) (now : Int) : Bool :=
  GetCurrentPhase sc now == PhaseNauticalDawn
def IsCivilDawn (sc : SunCalculator) (now : Int) : Bool := GetCurrentPhase sc now == PhaseCivilDawn
def IsSunrise (sc : SunCalculator) (now : Int) : Bool := GetCurrentPhase sc now == PhaseSunrise
def IsGoldenMorning (sc : SunCalculator) (now : Int) : Bool :=
  GetCurrentPhase sc now == PhaseGoldenMorning
def IsDay (sc : SunCalculator) (now : Int) : Bool := GetCurrentPhase sc now == PhaseDay
def IsGoldenEvening (sc : SunCalculator) (now : Int) : Bool :=
  GetCurrentPhase sc now == PhaseGoldenEvening
def IsSunset (sc : SunCalculator) (now : Int) : Bool := GetCurrentPhase sc now == PhaseSunset
def IsCivilDusk (sc : SunCalculator) (now : Int) : Bool := GetCurrentPhase sc now == PhaseCivilDusk
def IsNauticalDusk (sc : SunCalculator) (now : Int) : Bool :=
  GetCurrentPhase sc now == PhaseNauticalDusk
def IsAstroDusk (sc : SunCalculator) (now : Int) : Bool := GetCurrentPhase sc now == PhaseAstroDusk

/-! ## Vocabulary of the properties -/

/-- The instant the classifier compares against for `name`: `sc.times[name].Value`. -/
def boundary (sc : SunCalculator) (name : DayTimeName) : Int := (sc.times.index name).Value

/-- A boundary is missing when its key is absent from the map or it holds the
zero-value instant. -/
def isMissing (sc : SunCalculator) (name : DayTimeName) : Bool :=
  match sc.times name with
  | none => true
  | some d => d.Value == Time.zero

/-- A boundary is present when its key is bound to an instant other than the zero value. -/
def isPresent (sc : SunCalculator) (name : DayTimeName) : Bool := !isMissing sc name

/-- The twelve boundaries the classifier reads, in chronological order of a regular day. -/
def boundaryNames : List DayTimeName :=
  [NightEnd, NauticalDawn, Dawn, Sunrise, SunriseEnd, GoldenHourEnd,
   GoldenHour, SunsetStart, Sunset, Dusk, NauticalDusk, Night]

/-- The six morning boundaries. -/
def morningNames : List DayTimeName :=
  [NightEnd, NauticalDawn, Dawn, Sunrise, SunriseEnd, GoldenHourEnd]

/-- The six evening boundaries. -/
def eveningNames : List DayTimeName :=
  [GoldenHour, SunsetStart, Sunset, Dusk, NauticalDusk, Night]

/-- All twelve boundaries are present. -/
def AllPresent (sc : SunCalculator) : Prop := ∀ name ∈ boundaryNames, isPresent sc name = true

/-- The twelve boundaries are in non-decreasing order. -/
def Ordered (sc : SunCalculator) : Prop :=
  boundary sc NightEnd ≤ boundary sc NauticalDawn ∧
  boundary sc NauticalDawn ≤ boundary sc Dawn ∧
  boundary sc Dawn ≤ boundary sc Sunrise ∧
  boundary sc Sunrise ≤ boundary sc SunriseEnd ∧
  boundary sc SunriseEnd ≤ boundary sc GoldenHourEnd ∧
  boundary sc GoldenHourEnd ≤ boundary sc GoldenHour ∧
  boundary sc GoldenHour ≤ boundary sc SunsetStart ∧
  boundary sc SunsetStart ≤ boundary sc Sunset ∧
  boundary sc Sunset ≤ boundary sc Dusk ∧
  boundary sc Dusk ≤ boundary sc NauticalDusk ∧
  boundary sc NauticalDusk ≤ boundary sc Night

/-- The twelve boundaries are in strictly increasing order. -/
def StrictlyOrdered (sc : SunCalculator) : Prop :=
  boundary sc NightEnd < boundary sc NauticalDawn ∧
  boundary sc NauticalDawn < boundary sc Dawn ∧
  boundary sc Dawn < boundary sc Sunrise ∧
  boundary sc Sunrise < boundary sc SunriseEnd ∧
  boundary sc SunriseEnd < boundary sc GoldenHourEnd ∧
  boundary sc GoldenHourEnd < boundary sc GoldenHour ∧
  boundary sc GoldenHour < boundary sc SunsetStart ∧
  boundary sc SunsetStart < boundary sc Sunset ∧
  boundary sc Sunset < boundary sc Dusk ∧
  boundary sc Dusk < boundary sc NauticalDusk ∧
  boundary sc NauticalDusk < boundary sc Night

/-- The twelve phase constants, in the order of their declaration. -/
def allPhases : List DayPhase :=
  [PhaseNight, PhaseAstroDawn, PhaseNauticalDawn, PhaseCivilDawn, PhaseSunrise,
   PhaseGoldenMorning, PhaseDay, PhaseGoldenEvening, PhaseSunset, PhaseCivilDusk,
   PhaseNauticalDusk, PhaseAstroDusk]

/-- The fixed cycle of the phases other than Night, from the end of one night to the
start of the next. -/
def cycleOrder : List DayPhase :=
  [PhaseAstroDawn, PhaseNauticalDawn, PhaseCivilDawn, PhaseSunrise, PhaseGoldenMorning,
   PhaseDay, PhaseGoldenEvening, PhaseSunset, PhaseCivilDusk, PhaseNauticalDusk,
   PhaseAstroDusk]

/-- Position of a phase in the fixed cycle. -/
def cycleIndex (p : DayPhase) : Nat := cycleOrder.indexOf p

/-- All twelve boundaries are missing. -/
def AllMissing (sc : SunCalculator) : Prop := ∀ name ∈ boundaryNames, isMissing sc name = true

/-- The table of a polar night as the specification describes it: civil dawn is never
reached, so the eight boundaries from Dawn to Dusk are missing; the other four are
present and ordered. -/
def PolarNight (sc : SunCalculator) : Prop :=
  (∀ name ∈ [Dawn, Sunrise, SunriseEnd, GoldenHourEnd, GoldenHour, SunsetStart, Sunset, Dusk],
    isMissing sc name = true) ∧
  (∀ name ∈ [NightEnd, NauticalDawn, NauticalDusk, Night], isPresent sc name = true) ∧
  boundary sc NightEnd ≤ boundary sc NauticalDawn ∧
  boundary sc NauticalDawn ≤ boundary sc NauticalDusk ∧
  boundary sc NauticalDusk ≤ boundary sc Night

/-- The walk as the specification words it for missing boundaries: the checks of the
classifier in the same order (morning checks NightEnd, NauticalDawn, Dawn, Sunrise,
SunriseEnd, GoldenHourEnd, then evening checks Night, NauticalDusk, Dusk, Sunset,
SunsetStart, GoldenHour, else Day), the check against a boundary being left out when
`skip` holds for it. -/
def walkSkipping (skip : DayTimeName → Bool) (sc : SunCalculator) (now : Int) : DayPhase :=
  if !skip NightEnd && Time.Before now (sc.times.index NightEnd).Value then PhaseNight
  else if !skip NauticalDawn && Time.Before now (sc.times.index NauticalDawn).Value then
    PhaseAstroDawn
  else if !skip Dawn && Time.Before now (sc.times.index Dawn).Value then PhaseNauticalDawn
  else if !skip Sunrise && Time.Before now (sc.times.index Sunrise).Value then PhaseCivilDawn
  else if !skip SunriseEnd && Time.Before now (sc.times.index SunriseEnd).Value then
    PhaseSunrise
  else if !skip GoldenHourEnd && Time.Before now (sc.times.index GoldenHourEnd).Value then
    PhaseGoldenMorning
  else if !skip Night && Time.After now (sc.times.index Night).Value then PhaseNight
  else if !skip NauticalDusk && Time.After now (sc.times.index NauticalDusk).Value then
    PhaseAstroDusk
  else if !skip Dusk && Time.After now (sc.times.index Dusk).Value then PhaseNauticalDusk
  else if !skip Sunset && Time.After now (sc.times.index Sunset).Value then PhaseCivilDusk
  else if !skip SunsetStart && Time.After now (sc.times.index SunsetStart).Value then
    PhaseSunset
  else if !skip GoldenHour && Time.After now (sc.times.index GoldenHour).Value then
    PhaseGoldenEvening
  else PhaseDay

/-- The coordinate ranges of the specification: latitude within [-90, 90] and longitude
within [-180, 180]. -/
def validCoordinate (latitude longitude : Float64) : Bool :=
  decide (-90 ≤ latitude ∧ latitude ≤ 90 ∧ -180 ≤ longitude ∧ longitude ≤ 180)

/-- Outcome of a construction as the specification words it: a calculator, or the
InvalidCoordinate condition. -/
inductive Construction where
  | calculator (sc : SunCalculator)
  | InvalidCoordinate

/-- Construction as the specification words it: coordinates outside the ranges fail with
InvalidCoordinate and no table is computed; coordinates inside them give a calculator with
the table of that date and place. -/
def validatedConstruction (GetTimes : Int → Float64 → Float64 → TimesMap)
    (latitude longitude : Float64) (date : Int) : Construction :=
  if validCoordinate latitude longitude then
    Construction.calculator
      { latitude := latitude, longitude := longitude, date := date,
        times := GetTimes date latitude longitude }
  else Construction.InvalidCoordinate

/-! ## Sample inputs -/

/-- A calculator whose table binds the twelve boundaries to the given instants. -/
def tableOf (b1 b2 b3 b4 b5 b6 b7 b8 b9 b10 b11 b12 : Int) : SunCalculator :=
  { latitude := 0, longitude := 0, date := b1,
    times := fun name =>
      match name with
      | NightEnd => some ⟨b1⟩
      | NauticalDawn => some ⟨b2⟩
      | Dawn => some ⟨b3⟩
      | Sunrise => some ⟨b4⟩
      | SunriseEnd => some ⟨b5⟩
      | GoldenHourEnd => some ⟨b6⟩
      | GoldenHour => some ⟨b7⟩
      | SunsetStart => some ⟨b8⟩
      | Sunset => some ⟨b9⟩
      | Dusk => some ⟨b10⟩
      | NauticalDusk => some ⟨b11⟩
      | Night => some ⟨b12⟩
      | SolarNoon => none
      | Nadir => none }

/-- The instant at `h:m` UTC on 2026-03-20, in nanoseconds from the zero value
(2026-03-20 00:00 UTC is 63909561600 seconds after it). -/
def atClock (h m : Int) : Int := (63909561600 + h * 3600 + m * 60) * 1000000000

/-- A regular day: the twelve boundaries at 04:00, 04:40, 05:20, 06:00, 06:04, 06:45,
17:15, 17:56, 18:00, 18:40, 19:20 and 20:00. -/
def regularDay : SunCalculator :=
  tableOf (atClock 4 0) (atClock 4 40) (atClock 5 20) (atClock 6 0) (atClock 6 4)
    (atClock 6 45) (atClock 17 15) (atClock 17 56) (atClock 18 0) (atClock 18 40)
    (atClock 19 20) (atClock 20 0)

/-- A day of continuous daylight: no key of the table is bound. -/
def emptyDay : SunCalculator :=
  { latitude := 78, longitude := 15, date := atClock 0 0, times := fun _ => none }

/-- A summer day at high latitude on which the sun never sinks to 18 degrees below the
horizon: NightEnd and Night hold the zero-value instant, the other ten boundaries are at
01:30, 02:40, 03:30, 03:35, 04:20, 19:40, 20:25, 20:30, 21:20 and 22:30. -/
def whiteNight : SunCalculator :=
  tableOf Time.zero (atClock 1 30) (atClock 2 40) (atClock 3 30) (atClock 3 35)
    (atClock 4 20) (atClock 19 40) (atClock 20 25) (atClock 20 30) (atClock 21 20)
    (atClock 22 30) Time.zero

/-- A polar-night day: NightEnd at 07:00, NauticalDawn at 09:30, NauticalDusk at 14:30,
Night at 17:00, and the eight boundaries from Dawn to Dusk hold the zero-value instant. -/
def polarNightDay : SunCalculator :=
  tableOf (atClock 7 0) (atClock 9 30) Time.zero Time.zero Time.zero Time.zero
    Time.zero Time.zero Time.zero Time.zero (atClock 14 30) (atClock 17 0)

/-- A stand-in for `GetTimes` that yields the table of the regular day at every place. -/
def sampleGetTimes : Int → Float64 → Float64 → TimesMap := fun _ _ _ => regularDay.times

/-! ## Basic facts -/

theorem Time.before_iff (t u : Int) : Time.Before t u = true ↔ t < u := by
  simp [Time.Before]

theorem Time.after_iff (t u : Int) : Time.After t u = true ↔ u < t := by
  simp [Time.After]

/-- The classifier as a chain of comparisons against the twelve boundaries. -/
theorem GetCurrentPhase_chain (sc : SunCalculator) (now : Int) :
    GetCurrentPhase sc now =
      if now < boundary sc NightEnd then PhaseNight
      else if now < boundary sc NauticalDawn then PhaseAstroDawn
      else if now < boundary sc Dawn then PhaseNauticalDawn
      else if now < boundary sc Sunrise then PhaseCivilDawn
      else if now < boundary sc SunriseEnd then PhaseSunrise
      else if now < boundary sc GoldenHourEnd then PhaseGoldenMorning
      else if boundary sc Night < now then PhaseNight
      else if boundary sc NauticalDusk < now then PhaseAstroDusk
      else if boundary sc Dusk < now then PhaseNauticalDusk
      else if boundary sc Sunset < now then PhaseCivilDusk
      else if boundary sc SunsetStart < now then PhaseSunset
      else if boundary sc GoldenHour < now then PhaseGoldenEvening
      else PhaseDay := by
  simp only [GetCurrentPhase, boundary, Time.before_iff, Time.after_iff]

/-- Case principle of the classifier: a property holds of the returned phase as soon as it
holds at each of the thirteen exits, under the comparisons that lead to that exit. -/
theorem GetCurrentPhase_elim (sc : SunCalculator) (t : Int) (P : DayPhase → Prop)
    (e1 : t < boundary sc NightEnd → P PhaseNight)
    (e2 : boundary sc NightEnd ≤ t ∧ t < boundary sc NauticalDawn → P PhaseAstroDawn)
    (e3 : boundary sc NightEnd ≤ t ∧ boundary sc NauticalDawn ≤ t ∧ t < boundary sc Dawn →
      P PhaseNauticalDawn)
    (e4 : boundary sc NightEnd ≤ t ∧ boundary sc NauticalDawn ≤ t ∧ boundary sc Dawn ≤ t ∧
      t < boundary sc Sunrise → P PhaseCivilDawn)
    (e5 : boundary sc NightEnd ≤ t ∧ boundary sc NauticalDawn ≤ t ∧ boundary sc Dawn ≤ t ∧
      boundary sc Sunrise ≤ t ∧ t < boundary sc SunriseEnd → P PhaseSunrise)
    (e6 : boundary sc NightEnd ≤ t ∧ boundary sc NauticalDawn ≤ t ∧ boundary sc Dawn ≤ t ∧
      boundary sc Sunrise ≤ t ∧ boundary sc SunriseEnd ≤ t ∧ t < boundary sc GoldenHourEnd →
      P PhaseGoldenMorning)
    (e7 : boundary sc NightEnd ≤ t ∧ boundary sc NauticalDawn ≤ t ∧ boundary sc Dawn ≤ t ∧
      boundary sc Sunrise ≤ t ∧ boundary sc SunriseEnd ≤ t ∧ boundary sc GoldenHourEnd ≤ t ∧
      boundary sc Night < t → P PhaseNight)
    (e8 : boundary sc NightEnd ≤ t ∧ boundary sc NauticalDawn ≤ t ∧ boundary sc Dawn ≤ t ∧
      boundary sc Sunrise ≤ t ∧ boundary sc SunriseEnd ≤ t ∧ boundary sc GoldenHourEnd ≤ t ∧
      t ≤ boundary sc Night ∧ boundary sc NauticalDusk < t → P PhaseAstroDusk)
    (e9 : boundary sc NightEnd ≤ t ∧ boundary sc NauticalDawn ≤ t ∧ boundary sc Dawn ≤ t ∧
      boundary sc Sunrise ≤ t ∧ boundary sc SunriseEnd ≤ t ∧ boundary sc GoldenHourEnd ≤ t ∧
      t ≤ boundary sc Night ∧ t ≤ boundary sc NauticalDusk ∧ boundary sc Dusk < t →
      P PhaseNauticalDusk)
    (e10 : boundary sc NightEnd ≤ t ∧ boundary sc NauticalDawn ≤ t ∧ boundary sc Dawn ≤ t ∧
      boundary sc Sunrise ≤ t ∧ boundary sc SunriseEnd ≤ t ∧ boundary sc GoldenHourEnd ≤ t ∧
      t ≤ boundary sc Night ∧ t ≤ boundary sc NauticalDusk ∧ t ≤ boundary sc Dusk ∧
      boundary sc Sunset < t → P PhaseCivilDusk)
    (e11 : boundary sc NightEnd ≤ t ∧ boundary sc NauticalDawn ≤ t ∧ boundary sc Dawn ≤ t ∧
      boundary sc Sunrise ≤ t ∧ boundary sc SunriseEnd ≤ t ∧ boundary sc GoldenHourEnd ≤ t ∧
      t ≤ boundary sc Night ∧ t ≤ boundary sc NauticalDusk ∧ t ≤ boundary sc Dusk ∧
      t ≤ boundary sc Sunset ∧ boundary sc SunsetStart < t → P PhaseSunset)
    (e12 : boundary sc NightEnd ≤ t ∧ boundary sc NauticalDawn ≤ t ∧ boundary sc Dawn ≤ t ∧
      boundary sc Sunrise ≤ t ∧ boundary sc SunriseEnd ≤ t ∧ boundary sc GoldenHourEnd ≤ t ∧
      t ≤ boundary sc Night ∧ t ≤ boundary sc NauticalDusk ∧ t ≤ boundary sc Dusk ∧
      t ≤ boundary sc Sunset ∧ t ≤ boundary sc SunsetStart ∧ boundary sc GoldenHour < t →
      P PhaseGoldenEvening)
    (e13 : boundary sc NightEnd ≤ t ∧ boundary sc NauticalDawn ≤ t ∧ boundary sc Dawn ≤ t ∧
      boundary sc Sunrise ≤ t ∧ boundary sc SunriseEnd ≤ t ∧ boundary sc GoldenHourEnd ≤ t ∧
      t ≤ boundary sc Night ∧ t ≤ boundary sc NauticalDusk ∧ t ≤ boundary sc Dusk ∧
      t ≤ boundary sc Sunset ∧ t ≤ boundary sc SunsetStart ∧ t ≤ boundary sc GoldenHour →
      P PhaseDay) :
    P (GetCurrentPhase sc t) := by
  rw [GetCurrentPhase_chain]
  by_cases c1 : t < boundary sc NightEnd
  · rw [if_pos c1]
    exact e1 c1
  rw [if_neg c1]
  by_cases c2 : t < boundary sc NauticalDawn
  · rw [if_pos c2]
    exact e2 (by omega)
  rw [if_neg c2]
  by_cases c3 : t < boundary sc Dawn
  · rw [if_pos c3]
    exact e3 (by omega)
  rw [if_neg c3]
  by_cases c4 : t < boundary sc Sunrise
  · rw [if_pos c4]
    exact e4 (by omega)
  rw [if_neg c4]
  by_cases c5 : t < boundary sc SunriseEnd
  · rw [if_pos c5]
    exact e5 (by omega)
  rw [if_neg c5]
  by_cases c6 : t < boundary sc GoldenHourEnd
  · rw [if_pos c6]
    exact e6 (by omega)
  rw [if_neg c6]
  by_cases c7 : boundary sc Night < t
  · rw [if_pos c7]
    exact e7 (by omega)
  rw [if_neg c7]
  by_cases c8 : boundary sc NauticalDusk < t
  · rw [if_pos c8]
    exact e8 (by omega)
  rw [if_neg c8]
  by_cases c9 : boundary sc Dusk < t
  · rw [if_pos c9]
    exact e9 (by omega)
  rw [if_neg c9]
  by_cases c10 : boundary sc Sunset < t
  · rw [if_pos c10]
    exact e10 (by omega)
  rw [if_neg c10]
  by_cases c11 : boundary sc SunsetStart < t
  · rw [if_pos c11]
    exact e11 (by omega)
  rw [if_neg c11]
  by_cases c12 : boundary sc GoldenHour < t
  · rw [if_pos c12]
    exact e12 (by omega)
  rw [if_neg c12]
  exact e13 (by omega)

/-- The classifier returns Night exactly before NightEnd, or past the six morning
boundaries and after Night. -/
theorem GetCurrentPhase_eq_night_iff (sc : SunCalculator) (t : Int) :
    GetCurrentPhase sc t = PhaseNight ↔
      t < boundary sc NightEnd ∨
      (boundary sc NightEnd ≤ t ∧ boundary sc NauticalDawn ≤ t ∧ boundary sc Dawn ≤ t ∧
       boundary sc Sunrise ≤ t ∧ boundary sc SunriseEnd ≤ t ∧ boundary sc GoldenHourEnd ≤ t ∧
       boundary sc Night < t) := by
  apply GetCurrentPhase_elim sc t (fun p => p = PhaseNight ↔ _)
  all_goals intro c
  all_goals first
    | exact ⟨fun _ => by omega, fun _ => rfl⟩
    | exact ⟨fun h => absurd h (by decide), fun h => by omega⟩

/-- The classifier returns Day exactly when no check of the walk succeeds. -/
theorem GetCurrentPhase_eq_day_iff (sc : SunCalculator) (t : Int) :
    GetCurrentPhase sc t = PhaseDay ↔
      (boundary sc NightEnd ≤ t ∧ boundary sc NauticalDawn ≤ t ∧ boundary sc Dawn ≤ t ∧
       boundary sc Sunrise ≤ t ∧ boundary sc SunriseEnd ≤ t ∧ boundary sc GoldenHourEnd ≤ t) ∧
      (t ≤ boundary sc GoldenHour ∧ t ≤ boundary sc SunsetStart ∧ t ≤ boundary sc Sunset ∧
       t ≤ boundary sc Dusk ∧ t ≤ boundary sc NauticalDusk ∧ t ≤ boundary sc Night) := by
  apply GetCurrentPhase_elim sc t (fun p => p = PhaseDay ↔ _)
  all_goals intro c
  all_goals first
    | exact ⟨fun _ => by omega, fun _ => rfl⟩
    | exact ⟨fun h => absurd h (by decide), fun h => by omega⟩

/-- A missing boundary is read as the zero-value instant. -/
theorem boundary_of_isMissing (sc : SunCalculator) (name : DayTimeName)
    (h : isMissing sc name = true) : boundary sc name = 0 := by
  unfold isMissing at h
  unfold boundary TimesMap.index
  cases hv : sc.times name with
  | none => rfl
  | some d =>
    rw [hv] at h
    simpa [Time.zero] using h

/-! ## Properties -/

/-- C1: on a table whose twelve boundaries are all present and in non-decreasing
order, the classifier returns Night before NightEnd, then the morning phases on the
left-closed intervals between consecutive morning boundaries, Day on the closed
interval from GoldenHourEnd to GoldenHour, then the evening phases on the
right-closed intervals between consecutive evening boundaries, and Night after Night. -/
theorem GetCurrentPhase_intervals (sc : SunCalculator) (t : Int)
    (_hp : AllPresent sc) (ho : Ordered sc) :
    (t < boundary sc NightEnd → GetCurrentPhase sc t = PhaseNight) ∧
    (boundary sc NightEnd ≤ t ∧ t < boundary sc NauticalDawn →
      GetCurrentPhase sc t = PhaseAstroDawn) ∧
    (boundary sc NauticalDawn ≤ t ∧ t < boundary sc Dawn →
      GetCurrentPhase sc t = PhaseNauticalDawn) ∧
    (boundary sc Dawn ≤ t ∧ t < boundary sc Sunrise →
      GetCurrentPhase sc t = PhaseCivilDawn) ∧
    (boundary sc Sunrise ≤ t ∧ t < boundary sc SunriseEnd →
      GetCurrentPhase sc t = PhaseSunrise) ∧
    (boundary sc SunriseEnd ≤ t ∧ t < boundary sc GoldenHourEnd →
      GetCurrentPhase sc t = PhaseGoldenMorning) ∧
    (boundary sc GoldenHourEnd ≤ t ∧ t ≤ boundary sc GoldenHour →
      GetCurrentPhase sc t = PhaseDay) ∧
    (boundary sc GoldenHour < t ∧ t ≤ boundary sc SunsetStart →
      GetCurrentPhase sc t = PhaseGoldenEvening) ∧
    (boundary sc SunsetStart < t ∧ t ≤ boundary sc Sunset →
      GetCurrentPhase sc t = PhaseSunset) ∧
    (boundary sc Sunset < t ∧ t ≤ boundary sc Dusk →
      GetCurrentPhase sc t = PhaseCivilDusk) ∧
    (boundary sc Dusk < t ∧ t ≤ boundary sc NauticalDusk →
      GetCurrentPhase sc t = PhaseNauticalDusk) ∧
    (boundary sc NauticalDusk < t ∧ t ≤ boundary sc Night →
      GetCurrentPhase sc t = PhaseAstroDusk) ∧
    (boundary sc Night < t → GetCurrentPhase sc t = PhaseNight) := by
  obtain ⟨h1, h2, h3, h4, h5, h6, h7, h8, h9, h10, h11⟩ := ho
  refine ⟨?_, ?_, ?_, ?_, ?_, ?_, ?_, ?_, ?_, ?_, ?_, ?_, ?_⟩
  all_goals intro h
  all_goals apply GetCurrentPhase_elim sc t (fun p => p = _)
  all_goals intro c
  all_goals first | rfl | omega

/-- C1, at a concrete input: the regular day at 12:00 is in the Day phase. -/
theorem GetCurrentPhase_intervals_witness :
    AllPresent regularDay ∧ Ordered regularDay ∧
    GetCurrentPhase regularDay (atClock 12 0) = PhaseDay :=
  ⟨by unfold AllPresent; decide, by unfold Ordered; decide,
   (GetCurrentPhase_intervals regularDay (atClock 12 0) (by unfold AllPresent; decide)
      (by unfold Ordered; decide)).2.2.2.2.2.2.1 (by decide)⟩

/-- C2 as stated fails: on the regular day, whose boundaries are present and strictly
increasing, the clock reading equal to GoldenHour (17:15) is classified as Day, the phase
that ends there, and not as GoldenEvening. -/
theorem boundary_begins_phase_counterexample :
    AllPresent regularDay ∧ StrictlyOrdered regularDay ∧
    boundary regularDay GoldenHour = atClock 17 15 ∧
    GetCurrentPhase regularDay (boundary regularDay GoldenHour) = PhaseDay ∧
    PhaseDay ≠ PhaseGoldenEvening :=
  ⟨by unfold AllPresent; decide, by unfold StrictlyOrdered; decide, by decide, by decide,
   by decide⟩

/-- C2, amended: on a table whose twelve boundaries are all present and strictly
increasing, a clock reading equal to a morning boundary is classified into the phase that
begins there (NightEnd: AstroDawn, NauticalDawn: NauticalDawn, Dawn: CivilDawn, Sunrise:
Sunrise, SunriseEnd: GoldenMorning, GoldenHourEnd: Day), and a clock reading equal to an
evening boundary into the phase that ends there (GoldenHour: Day, SunsetStart:
GoldenEvening, Sunset: Sunset, Dusk: CivilDusk, NauticalDusk: NauticalDusk, Night:
AstroDusk). -/
theorem GetCurrentPhase_at_boundary (sc : SunCalculator)
    (_hp : AllPresent sc) (ho : StrictlyOrdered sc) :
    GetCurrentPhase sc (boundary sc NightEnd) = PhaseAstroDawn ∧
    GetCurrentPhase sc (boundary sc NauticalDawn) = PhaseNauticalDawn ∧
    GetCurrentPhase sc (boundary sc Dawn) = PhaseCivilDawn ∧
    GetCurrentPhase sc (boundary sc Sunrise) = PhaseSunrise ∧
    GetCurrentPhase sc (boundary sc SunriseEnd) = PhaseGoldenMorning ∧
    GetCurrentPhase sc (boundary sc GoldenHourEnd) = PhaseDay ∧
    GetCurrentPhase sc (boundary sc GoldenHour) = PhaseDay ∧
    GetCurrentPhase sc (boundary sc SunsetStart) = PhaseGoldenEvening ∧
    GetCurrentPhase sc (boundary sc Sunset) = PhaseSunset ∧
    GetCurrentPhase sc (boundary sc Dusk) = PhaseCivilDusk ∧
    GetCurrentPhase sc (boundary sc NauticalDusk) = PhaseNauticalDusk ∧
    GetCurrentPhase sc (boundary sc Night) = PhaseAstroDusk := by
  obtain ⟨h1, h2, h3, h4, h5, h6, h7, h8, h9, h10, h11⟩ := ho
  refine ⟨?_, ?_, ?_, ?_, ?_, ?_, ?_, ?_, ?_, ?_, ?_, ?_⟩
  all_goals apply GetCurrentPhase_elim sc _ (fun p => p = _)
  all_goals intro c
  all_goals first | rfl | omega

/-- C2 amended, at a concrete input: the regular day. -/
theorem GetCurrentPhase_at_boundary_witness :
    AllPresent regularDay ∧ StrictlyOrdered regularDay ∧
    GetCurrentPhase regularDay (boundary regularDay Sunset) = PhaseSunset :=
  ⟨by unfold AllPresent; decide, by unfold StrictlyOrdered; decide,
   (GetCurrentPhase_at_boundary regularDay (by unfold AllPresent; decide)
      (by unfold StrictlyOrdered; decide)).2.2.2.2.2.2.2.2.1⟩

/-- C3: a missing boundary must never decide the classification, and the code breaks this
for the evening boundaries. On the white-night table, where NightEnd and Night are
missing, the classifier at 12:00 returns Night, decided by the check against the missing
Night boundary, while the same walk with the checks against the missing boundaries
skipped returns Day. The morning checks do what the claim says: at 01:00 the check
against the missing NightEnd does not decide, and the classifier agrees with the skipping
walk on AstroDawn. -/
theorem missing_evening_boundary_decides :
    isMissing whiteNight Night = true ∧
    GetCurrentPhase whiteNight (atClock 12 0) = PhaseNight ∧
    walkSkipping (isMissing whiteNight) whiteNight (atClock 12 0) = PhaseDay ∧
    PhaseNight ≠ PhaseDay ∧
    isMissing whiteNight NightEnd = true ∧
    GetCurrentPhase whiteNight (atClock 1 0) = PhaseAstroDawn ∧
    walkSkipping (isMissing whiteNight) whiteNight (atClock 1 0) = PhaseAstroDawn :=
  ⟨by decide, by decide, by decide, by decide, by decide, by decide, by decide⟩

/-- C4: on a polar day, with all twelve boundaries missing, the classifier must return
Day, and the code does not. On the table that binds no key, the classifier at 12:00
returns Night: the six morning checks fail against the zero-value instant and the check
against the missing Night boundary succeeds, so `IsNight` is true and `IsDay` is false. -/
theorem polar_day_classified_night :
    AllMissing emptyDay ∧
    GetCurrentPhase emptyDay (atClock 12 0) = PhaseNight ∧
    PhaseNight ≠ PhaseDay ∧
    IsNight emptyDay (atClock 12 0) = true ∧
    IsDay emptyDay (atClock 12 0) = false ∧
    walkSkipping (isMissing emptyDay) emptyDay (atClock 12 0) = PhaseDay :=
  ⟨by unfold AllMissing; decide, by decide, by decide, by decide, by decide, by decide⟩

/-- C5 as stated fails: on the polar-night table the classifier at 12:00, between
NauticalDawn and NauticalDusk, returns NauticalDusk, and at 08:00, between NightEnd and
NauticalDawn, it returns AstroDawn; neither is Night. -/
theorem polar_night_counterexample :
    PolarNight polarNightDay ∧
    GetCurrentPhase polarNightDay (atClock 12 0) = PhaseNauticalDusk ∧
    GetCurrentPhase polarNightDay (atClock 8 0) = PhaseAstroDawn ∧
    PhaseNauticalDusk ≠ PhaseNight ∧ PhaseAstroDawn ≠ PhaseNight :=
  ⟨by unfold PolarNight; decide, by decide, by decide, by decide, by decide⟩

/-- C5, amended: on a polar-night table (the eight boundaries from Dawn to Dusk missing,
the other four present with NightEnd ≤ NauticalDawn ≤ NauticalDusk ≤ Night) and for every
clock reading not before the zero-value instant, the classifier returns Night exactly
when the clock reading is before NightEnd or after Night. -/
theorem GetCurrentPhase_polar_night (sc : SunCalculator) (t : Int)
    (hp : PolarNight sc) (ht : Time.zero ≤ t) :
    GetCurrentPhase sc t = PhaseNight ↔ (t < boundary sc NightEnd ∨ boundary sc Night < t) := by
  obtain ⟨hm, _, h1, h2, h3⟩ := hp
  have h0 : (0 : Int) ≤ t := ht
  have z3 := boundary_of_isMissing sc Dawn (hm Dawn (by decide))
  have z4 := boundary_of_isMissing sc Sunrise (hm Sunrise (by decide))
  have z5 := boundary_of_isMissing sc SunriseEnd (hm SunriseEnd (by decide))
  have z6 := boundary_of_isMissing sc GoldenHourEnd (hm GoldenHourEnd (by decide))
  rw [GetCurrentPhase_eq_night_iff]
  omega

/-- C5 amended, at a concrete input: the polar-night table at 18:00, after Night. -/
theorem GetCurrentPhase_polar_night_witness :
    PolarNight polarNightDay ∧ Time.zero ≤ atClock 18 0 ∧
    boundary polarNightDay Night < atClock 18 0 ∧
    GetCurrentPhase polarNightDay (atClock 18 0) = PhaseNight :=
  ⟨by unfold PolarNight; decide, by decide, by decide,
   (GetCurrentPhase_polar_night polarNightDay (atClock 18 0) (by unfold PolarNight; decide)
     (by decide)).2 (Or.inr (by decide))⟩

/-- C6 as stated fails: at latitude 91, outside [-90, 90], the specification's construction
fails with InvalidCoordinate, while `NewSunCalculator` returns a calculator that stores
the latitude 91 and carries the table computed by `GetTimes` for it. -/
theorem invalid_coordinate_counterexample :
    validCoordinate 91 0 = false ∧
    validatedConstruction sampleGetTimes 91 0 (atClock 12 0) = Construction.InvalidCoordinate ∧
    Construction.calculator (NewSunCalculator sampleGetTimes 91 0 (atClock 12 0)) ≠
      validatedConstruction sampleGetTimes 91 0 (atClock 12 0) ∧
    (NewSunCalculator sampleGetTimes 91 0 (atClock 12 0)).latitude = 91 ∧
    (NewSunCalculator sampleGetTimes 91 0 (atClock 12 0)).times =
      sampleGetTimes (atClock 12 0) 91 0 := by
  have hv : validCoordinate 91 0 = false := by
    unfold validCoordinate
    norm_num
  have hc : validatedConstruction sampleGetTimes 91 0 (atClock 12 0) =
      Construction.InvalidCoordinate := by
    unfold validatedConstruction
    rw [hv]
    rfl
  refine ⟨hv, hc, ?_, rfl, rfl⟩
  rw [hc]
  intro h
  cases h

/-- C6, amended: `NewSunCalculator` performs no validation. For every latitude, longitude
and date it returns a calculator that stores the three unchanged together with the table
`GetTimes` computes for them; for coordinates inside both ranges this is the calculator
the specification's construction returns. -/
theorem NewSunCalculator_total (GetTimes : Int → Float64 → Float64 → TimesMap)
    (latitude longitude : Float64) (date : Int) :
    NewSunCalculator GetTimes latitude longitude date =
      { latitude := latitude, longitude := longitude, date := date,
        times := GetTimes date latitude longitude } ∧
    (validCoordinate latitude longitude = true →
      validatedConstruction GetTimes latitude longitude date =
        Construction.calculator (NewSunCalculator GetTimes latitude longitude date)) := by
  refine ⟨rfl, ?_⟩
  intro hv
  unfold validatedConstruction
  rw [if_pos hv]
  rfl

/-- C6 amended, at a concrete input: Greenwich, latitude 51.4779 and longitude 0. -/
theorem NewSunCalculator_total_witness :
    validCoordinate (514779 / 10000) 0 = true ∧
    validatedConstruction sampleGetTimes (514779 / 10000) 0 (atClock 12 0) =
      Construction.calculator
        (NewSunCalculator sampleGetTimes (514779 / 10000) 0 (atClock 12 0)) := by
  have hv : validCoordinate (514779 / 10000) 0 = true := by
    unfold validCoordinate
    norm_num
  exact ⟨hv, (NewSunCalculator_total sampleGetTimes (514779 / 10000) 0 (atClock 12 0)).2 hv⟩

/-- C7: the classifier is a total function whose result, for every table and every clock
reading, is one of the twelve phase constants; the constants are the twelve strings of
the source and are pairwise distinct. -/
theorem GetCurrentPhase_total (sc : SunCalculator) (t : Int) :
    GetCurrentPhase sc t ∈ allPhases ∧
    allPhases = ["night", "astroDawn", "nauticalDawn", "civilDawn", "sunrise",
      "goldenMorning", "day", "goldenEvening", "sunset", "civilDusk", "nauticalDusk",
      "astroDusk"] ∧
    allPhases.length = 12 ∧ allPhases.Nodup := by
  refine ⟨?_, rfl, rfl, by decide⟩
  apply GetCurrentPhase_elim sc t (fun p => p ∈ allPhases)
  all_goals intro _
  all_goals decide

/-- C8: on a table whose twelve boundaries are all present and in non-decreasing order,
and for clock readings t1 ≤ t2: (i) when the classifier returns a phase other than Night at
both, the phase at t1 does not come after the phase at t2 in the cycle AstroDawn,
NauticalDawn, CivilDawn, Sunrise, GoldenMorning, Day, GoldenEvening, Sunset, CivilDusk,
NauticalDusk, AstroDusk; (ii) when it returns a phase other than Night somewhere between
t1 and t2 and Night at both t1 and t2, then t1 is before NightEnd and t2 is after Night. -/
theorem phase_moves_forward (sc : SunCalculator) (t1 t2 : Int)
    (_hp : AllPresent sc) (ho : Ordered sc) (h12 : t1 ≤ t2) :
    (GetCurrentPhase sc t1 ≠ PhaseNight → GetCurrentPhase sc t2 ≠ PhaseNight →
      cycleIndex (GetCurrentPhase sc t1) ≤ cycleIndex (GetCurrentPhase sc t2)) ∧
    (∀ t, t1 ≤ t → t ≤ t2 → GetCurrentPhase sc t ≠ PhaseNight →
      GetCurrentPhase sc t1 = PhaseNight → GetCurrentPhase sc t2 = PhaseNight →
      t1 < boundary sc NightEnd ∧ boundary sc Night < t2) := by
  obtain ⟨h1, h2, h3, h4, h5, h6, h7, h8, h9, h10, h11⟩ := ho
  constructor
  · apply GetCurrentPhase_elim sc t1 (fun p =>
      p ≠ PhaseNight → GetCurrentPhase sc t2 ≠ PhaseNight →
        cycleIndex p ≤ cycleIndex (GetCurrentPhase sc t2))
    all_goals intro c1
    all_goals apply GetCurrentPhase_elim sc t2 (fun q =>
      _ ≠ PhaseNight → q ≠ PhaseNight → cycleIndex _ ≤ cycleIndex q)
    all_goals intro c2
    all_goals first
      | omega
      | (intro h _; exact absurd rfl h)
      | (intro _ h; exact absurd rfl h)
      | (intro _ _; decide)
  · intro t ht1 ht2 hne hn1 hn2
    have a := (GetCurrentPhase_eq_night_iff sc t1).1 hn1
    have b := (GetCurrentPhase_eq_night_iff sc t2).1 hn2
    have c := mt (GetCurrentPhase_eq_night_iff sc t).2 hne
    omega

/-- C8, at a concrete input: the regular day at 05:00 (NauticalDawn) and 18:30 (CivilDusk). -/
theorem phase_moves_forward_witness :
    AllPresent regularDay ∧ Ordered regularDay ∧ atClock 5 0 ≤ atClock 18 30 ∧
    GetCurrentPhase regularDay (atClock 5 0) = PhaseNauticalDawn ∧
    GetCurrentPhase regularDay (atClock 18 30) = PhaseCivilDusk ∧
    cycleIndex (GetCurrentPhase regularDay (atClock 5 0)) ≤
      cycleIndex (GetCurrentPhase regularDay (atClock 18 30)) :=
  ⟨by unfold AllPresent; decide, by unfold Ordered; decide, by decide, by decide, by decide,
   (phase_moves_forward regularDay (atClock 5 0) (atClock 18 30)
      (by unfold AllPresent; decide) (by unfold Ordered; decide) (by decide)).1
      (by decide) (by decide)⟩

/-- C9: with the clock reading held at one value for all calls, each of the twelve binary
getters returns true exactly when the classifier returns its phase, and exactly one of
the twelve getters returns true. -/
theorem getters_partition (sc : SunCalculator) (t : Int) :
    (IsNight sc t = true ↔ GetCurrentPhase sc t = PhaseNight) ∧
    (IsAstroDawn sc t = true ↔ GetCurrentPhase sc t = PhaseAstroDawn) ∧
    (IsNauticalDawn sc t = true ↔ GetCurrentPhase sc t = PhaseNauticalDawn) ∧
    (IsCivilDawn sc t = true ↔ GetCurrentPhase sc t = PhaseCivilDawn) ∧
    (IsSunrise sc t = true ↔ GetCurrentPhase sc t = PhaseSunrise) ∧
    (IsGoldenMorning sc t = true ↔ GetCurrentPhase sc t = PhaseGoldenMorning) ∧
    (IsDay sc t = true ↔ GetCurrentPhase sc t = PhaseDay) ∧
    (IsGoldenEvening sc t = true ↔ GetCurrentPhase sc t = PhaseGoldenEvening) ∧
    (IsSunset sc t = true ↔ GetCurrentPhase sc t = PhaseSunset) ∧
    (IsCivilDusk sc t = true ↔ GetCurrentPhase sc t = PhaseCivilDusk) ∧
    (IsNauticalDusk sc t = true ↔ GetCurrentPhase sc t = PhaseNauticalDusk) ∧
    (IsAstroDusk sc t = true ↔ GetCurrentPhase sc t = PhaseAstroDusk) ∧
    [IsNight sc t, IsAstroDawn sc t, IsNauticalDawn sc t, IsCivilDawn sc t, IsSunrise sc t,
      IsGoldenMorning sc t, IsDay sc t, IsGoldenEvening sc t, IsSunset sc t,
      IsCivilDusk sc t, IsNauticalDusk sc t, IsAstroDusk sc t].count true = 1 := by
  unfold IsNight IsAstroDawn IsNauticalDawn IsCivilDawn IsSunrise IsGoldenMorning IsDay
    IsGoldenEvening IsSunset IsCivilDusk IsNauticalDusk IsAstroDusk
  apply GetCurrentPhase_elim sc t (fun p =>
    ((p == PhaseNight) = true ↔ p = PhaseNight) ∧
    ((p == PhaseAstroDawn) = true ↔ p = PhaseAstroDawn) ∧
    ((p == PhaseNauticalDawn) = true ↔ p = PhaseNauticalDawn) ∧
    ((p == PhaseCivilDawn) = true ↔ p = PhaseCivilDawn) ∧
    ((p == PhaseSunrise) = true ↔ p = PhaseSunrise) ∧
    ((p == PhaseGoldenMorning) = true ↔ p = PhaseGoldenMorning) ∧
    ((p == PhaseDay) = true ↔ p = PhaseDay) ∧
    ((p == PhaseGoldenEvening) = true ↔ p = PhaseGoldenEvening) ∧
    ((p == PhaseSunset) = true ↔ p = PhaseSunset) ∧
    ((p == PhaseCivilDusk) = true ↔ p = PhaseCivilDusk) ∧
    ((p == PhaseNauticalDusk) = true ↔ p = PhaseNauticalDusk) ∧
    ((p == PhaseAstroDusk) = true ↔ p = PhaseAstroDusk) ∧
    [p == PhaseNight, p == PhaseAstroDawn, p == PhaseNauticalDawn, p == PhaseCivilDawn,
      p == PhaseSunrise, p == PhaseGoldenMorning, p == PhaseDay, p == PhaseGoldenEvening,
      p == PhaseSunset, p == PhaseCivilDusk, p == PhaseNauticalDusk,
      p == PhaseAstroDusk].count true = 1)
  all_goals intro _
  all_goals decide

/-- C10: with no assumption on the table, the classifier returns Day if and only if the
clock reading is not earlier than any of the six morning boundaries and not later than
any of the six evening boundaries, each boundary read as `sc.times[name].Value`. -/
theorem day_iff_fall_through (sc : SunCalculator) (t : Int) :
    GetCurrentPhase sc t = PhaseDay ↔
      (∀ name ∈ morningNames, Time.Before t (sc.times.index name).Value = false) ∧
      (∀ name ∈ eveningNames, Time.After t (sc.times.index name).Value = false) := by
  rw [GetCurrentPhase_eq_day_iff]
  simp only [morningNames, eveningNames, List.forall_mem_cons, List.not_mem_nil,
    false_implies, implies_true, and_true, Time.Before, Time.After, decide_eq_false_iff_not,
    not_lt, boundary]

end SunCalc
